import Mathlib

/-!
Verification of the task-lifecycle engine of `upgraded-guide`.

The development shallowly embeds the Rust sources:
  * `src/app/sleep_task.rs` — the live, pause-aware reference task
    (`SleepTask`), the implementation used by the application UI
    (`template_ui.rs`) and the test suite (`task_queue_tests.rs`);
  * `src/app/task_queue.rs` — the registry (`TaskQueue`): `add_task`,
    `poll_task`, `_remove_task`, and the completion-observer loop spawned by
    `_get_task`.  (That file also carries a superseded duplicate of
    `SleepTask` with a payload-less `Paused` poll result; it cannot compile
    against the `PollResult::Paused(PollingData)` constructor that
    `sleep_task.rs`, the UI and the tests all use, so the pause-aware
    `sleep_task.rs` implementation is taken as the reference task.  The
    duplicate's timer closure is embedded separately as `bgFinishLegacy` for
    comparison.)

Modelling conventions:
  * `std::time::Instant` values and `Duration`s are rationals (seconds);
    `Instant::now()` becomes an explicit `now : ℚ` argument to each operation
    that reads the clock, and `t.elapsed()` becomes `now - t`.
  * The f32 arithmetic of the progress computation is modelled exactly over
    ℚ, with infinity and NaN tracked explicitly by `FVal` (rounding is not
    modelled; all values involved are non-negative).  Rust's `f32::min`
    ignores NaN operands and `NaN >= 1.0` is false, which `fminOne` and
    `fge1` reproduce.
  * The spawned timer closure of `SleepTask::poll` runs concurrently with the
    controller; its two phases are embedded as separate events: `bgStart`
    (the writes before `task::sleep`) and `bgFinish` (the status update after
    the sleep).
  * Rust `Result<(), TaskError>` becomes `Except TaskError Unit`.  The one
    genuinely partial point of the source, the `start_time.unwrap()` inside
    `pause`, makes the embedded `pause` return an `Option` (`none` = panic).
-/

/-- Lifecycle states, from `TaskStatus` in `task_queue.rs`. -/
inductive TaskStatus where
  | Queued
  | Running
  | Paused
  | Completed
  | Cancelled
deriving DecidableEq, Repr

/-- Failure kinds, from `TaskError` in `task_queue.rs`. -/
inductive TaskError where
  | NotFound
  | AlreadyRunning
  | AlreadyPaused
  | AlreadyCancelled
  | AlreadyCompleted
deriving DecidableEq, Repr

/-- Model of the non-negative `f32` values produced by the progress
computation: an exact rational, positive infinity, or NaN. -/
inductive FVal where
  | fin (q : ℚ)
  | inf
  | nan
deriving DecidableEq, Repr

/-- Rust `f32` division `a / b` for non-negative operands: `0.0 / 0.0` is
NaN, `a / 0.0` with `a ≠ 0` is `+∞`, otherwise exact. -/
def fdiv (a b : ℚ) : FVal :=
  if b = 0 then (if a = 0 then FVal.nan else FVal.inf) else FVal.fin (a / b)

/-- Rust `x.min(1.0)`: `f32::min` returns the other operand when one is NaN,
so NaN (and `+∞`) map to `1.0`. -/
def fminOne : FVal → FVal
  | FVal.fin q => FVal.fin (min q 1)
  | FVal.inf => FVal.fin 1
  | FVal.nan => FVal.fin 1

/-- Rust `x >= 1.0`: false on NaN, true on `+∞`. -/
def fge1 : FVal → Bool
  | FVal.fin q => decide (1 ≤ q)
  | FVal.inf => true
  | FVal.nan => false

/-- Poll payload, from `PollingData` in `task_queue.rs` (only the `Float`
variant is live). -/
inductive PollingData where
  | Float (x : FVal)
deriving DecidableEq, Repr

/-- Poll outcomes, from `PollResult`.  `Paused` carries `PollingData`, as
constructed by `sleep_task.rs` and consumed by the UI and the tests (the
stale copy of the enum in `task_queue.rs` has a payload-less `Paused`). -/
inductive PollResult where
  | Pending (d : PollingData)
  | Paused (d : PollingData)
  | Completed
  | Cancelled
deriving DecidableEq, Repr

/-- State of the reference task, from `struct SleepTask` in
`sleep_task.rs`.  The `Arc<Mutex<_>>` wrappers disappear in the embedding;
the spawned-handle field is kept as a flag recording that the timer was
spawned. -/
structure SleepTask where
  id : Nat
  duration : ℚ
  status : TaskStatus
  handleSpawned : Bool
  start_time : Option ℚ
  elapsed_time : ℚ
  paused_duration : ℚ
deriving DecidableEq, Repr

namespace SleepTask

/-- Embeds `SleepTask::new` from `sleep_task.rs`. -/
def new (id : Nat) (duration : ℚ) : SleepTask :=
  { id := id
    duration := duration
    status := TaskStatus.Queued
    handleSpawned := false
    start_time := none
    elapsed_time := 0
    paused_duration := 0 }

/-- Embeds `SleepTask::poll` from `sleep_task.rs` (the synchronous body; the spawned
closure is `bgStart`/`bgFinish` below).  Returns the mutated task state and
the `PollResult`. -/
def poll (s : SleepTask) (now : ℚ) : SleepTask × PollResult :=
  match s.status with
  | TaskStatus.Queued =>
      ({ s with handleSpawned := true },
        PollResult.Pending (PollingData.Float (FVal.fin 0)))
  | TaskStatus.Running =>
      match s.start_time with
      | some t =>
          if s.paused_duration > 0 then
            let elapsed := (now - t) + s.paused_duration
            let progress := fdiv elapsed s.duration
            if fge1 progress then
              ({ s with elapsed_time := elapsed }, PollResult.Completed)
            else
              ({ s with elapsed_time := elapsed },
                PollResult.Pending (PollingData.Float (fminOne progress)))
          else
            let elapsed := now - t
            let progress := fdiv elapsed s.duration
            ({ s with elapsed_time := elapsed },
              PollResult.Pending (PollingData.Float (fminOne progress)))
      | none => (s, PollResult.Pending (PollingData.Float (FVal.fin 0)))
  | TaskStatus.Paused =>
      (s, PollResult.Paused
        (PollingData.Float (fminOne (fdiv s.paused_duration s.duration))))
  | TaskStatus.Completed => (s, PollResult.Completed)
  | TaskStatus.Cancelled => (s, PollResult.Cancelled)

/-- Embeds `SleepTask::cancel` from `sleep_task.rs`. -/
def cancel (s : SleepTask) : SleepTask × Except TaskError Unit :=
  match s.status with
  | TaskStatus.Queued =>
      ({ s with status := TaskStatus.Cancelled }, Except.ok ())
  | TaskStatus.Running =>
      ({ s with status := TaskStatus.Cancelled }, Except.ok ())
  | TaskStatus.Paused =>
      ({ s with status := TaskStatus.Cancelled }, Except.ok ())
  | TaskStatus.Completed => (s, Except.error TaskError.AlreadyCompleted)
  | TaskStatus.Cancelled => (s, Except.error TaskError.AlreadyCancelled)

/-- Embeds `SleepTask::pause` from `sleep_task.rs`.  From `Running` the source sets
`status := Paused` and then `paused_duration := now - start_time.unwrap()`;
the `unwrap` is the one partial point, modelled by the `Option` result
(`none` = panic on `start_time = none`). -/
def pause (s : SleepTask) (now : ℚ) :
    Option (SleepTask × Except TaskError Unit) :=
  match s.status with
  | TaskStatus.Queued =>
      some ({ s with status := TaskStatus.Paused }, Except.ok ())
  | TaskStatus.Running =>
      match s.start_time with
      | some t =>
          some ({ s with
                    status := TaskStatus.Paused
                    paused_duration := now - t }, Except.ok ())
      | none => none
  | TaskStatus.Paused => some (s, Except.error TaskError.AlreadyPaused)
  | TaskStatus.Completed => some (s, Except.error TaskError.AlreadyCompleted)
  | TaskStatus.Cancelled => some (s, Except.error TaskError.AlreadyCancelled)

/-- Embeds `SleepTask::resume` from `sleep_task.rs`. -/
def resume (s : SleepTask) (now : ℚ) : SleepTask × Except TaskError Unit :=
  match s.status with
  | TaskStatus.Queued => (s, Except.error TaskError.NotFound)
  | TaskStatus.Running => (s, Except.error TaskError.AlreadyRunning)
  | TaskStatus.Paused =>
      ({ s with start_time := some now, status := TaskStatus.Running },
        Except.ok ())
  | TaskStatus.Completed => (s, Except.error TaskError.AlreadyCompleted)
  | TaskStatus.Cancelled => (s, Except.error TaskError.AlreadyCancelled)

/-- Pre-sleep phase of the timer closure spawned by `SleepTask::poll`
(`sleep_task.rs` lines 53-60): unconditionally sets the status to `Running`
and records the start instant. -/
def bgStart (s : SleepTask) (now : ℚ) : SleepTask :=
  { s with status := TaskStatus.Running, start_time := some now }

/-- Post-sleep phase of the timer closure spawned by `SleepTask::poll`
(`sleep_task.rs` lines 62-73): `Running` becomes `Completed`, `Paused` is
rewritten to `Paused` (left unchanged), every other status is untouched. -/
def bgFinish (s : SleepTask) : SleepTask :=
  match s.status with
  | TaskStatus.Running => { s with status := TaskStatus.Completed }
  | TaskStatus.Paused => { s with status := TaskStatus.Paused }
  | _ => s

/-- Post-sleep phase of the timer closure of the superseded duplicate
`SleepTask` in `task_queue.rs` (lines 199-202): it sets the status to
`Completed` unconditionally, with no pause awareness — the inconsistency the
specification flags as an open question. -/
def bgFinishLegacy (s : SleepTask) : SleepTask :=
  { s with status := TaskStatus.Completed }

end SleepTask

/-- Concurrent events acting on a `SleepTask`: the four controller calls and
the two phases of the spawned timer closure, each stamped with the instant
at which it runs. -/
inductive Ev where
  | pollEv (now : ℚ)
  | pauseEv (now : ℚ)
  | resumeEv (now : ℚ)
  | cancelEv (now : ℚ)
  | bgStartEv (now : ℚ)
  | bgFinishEv (now : ℚ)
deriving DecidableEq, Repr

/-- Instant at which an event runs. -/
def Ev.time : Ev → ℚ
  | Ev.pollEv t => t
  | Ev.pauseEv t => t
  | Ev.resumeEv t => t
  | Ev.cancelEv t => t
  | Ev.bgStartEv t => t
  | Ev.bgFinishEv t => t

/-- State reached after one event (results are discarded; a panicking
`pause` leaves the state unchanged). -/
def applyEv (s : SleepTask) : Ev → SleepTask
  | Ev.pollEv t => (SleepTask.poll s t).1
  | Ev.pauseEv t =>
      match SleepTask.pause s t with
      | some (s', _) => s'
      | none => s
  | Ev.resumeEv t => (SleepTask.resume s t).1
  | Ev.cancelEv _ => (SleepTask.cancel s).1
  | Ev.bgStartEv t => SleepTask.bgStart s t
  | Ev.bgFinishEv _ => SleepTask.bgFinish s

/-- State reached after a sequence of events. -/
def runTrace (s : SleepTask) : List Ev → SleepTask
  | [] => s
  | e :: es => runTrace (applyEv s e) es

/-- Total time spent in status `Running` along an event trace, starting the
clock at `t0`: each event contributes the span since the previous event when
the status over that span was `Running`. -/
def cumRunning (s : SleepTask) (t0 : ℚ) : List Ev → ℚ
  | [] => 0
  | e :: es =>
      (if s.status = TaskStatus.Running then e.time - t0 else 0) +
        cumRunning (applyEv s e) e.time es

/-- The registry, from `struct TaskQueue` in `task_queue.rs`.  The
`HashMap<usize, Arc<Mutex<dyn Task>>>` is embedded as an association list of
identities to task states (ids are unique, so order carries no meaning);
`SleepTask` is the sole implementor of the `Task` trait.  The `AtomicUsize`
counter is the `next_id` field. -/
structure TaskQueue where
  tasks : List (Nat × SleepTask)
  next_id : Nat
deriving DecidableEq, Repr

namespace TaskQueue

/-- Embeds `TaskQueue::new` from `task_queue.rs`. -/
def new : TaskQueue := { tasks := [], next_id := 0 }

/-- Lookup, embedding `HashMap::get` on the embedded map. -/
def findTask (q : TaskQueue) (id : Nat) : Option SleepTask :=
  (q.tasks.find? (fun p => p.1 = id)).map Prod.snd

/-- Replace the binding for `id` (used to write back the state mutated by a
delegated `poll`). -/
def setTask (q : TaskQueue) (id : Nat) (t : SleepTask) : TaskQueue :=
  { q with tasks := q.tasks.map (fun p => if p.1 = id then (id, t) else p) }

/-- Embeds `TaskQueue::add_task` from `task_queue.rs`: fetch-and-add the counter,
insert the task under the fresh identity, return the identity. -/
def add_task (q : TaskQueue) (t : SleepTask) : TaskQueue × Nat :=
  ({ tasks := (q.next_id, t) :: q.tasks, next_id := q.next_id + 1 },
    q.next_id)

/-- Embeds `TaskQueue::poll_task` from `task_queue.rs`: look the task up, delegate to
its `poll` under its lock, `NotFound` when the identity is absent. -/
def poll_task (q : TaskQueue) (id : Nat) (now : ℚ) :
    TaskQueue × Except TaskError PollResult :=
  match q.findTask id with
  | some t =>
      let r := SleepTask.poll t now
      (q.setTask id r.1, Except.ok r.2)
  | none => (q, Except.error TaskError.NotFound)

/-- Embeds `TaskQueue::_remove_task` from `task_queue.rs`: delete the mapping
outright, `NotFound` when the identity is absent. -/
def remove_task (q : TaskQueue) (id : Nat) :
    TaskQueue × Except TaskError Unit :=
  match q.findTask id with
  | some _ =>
      ({ q with tasks := q.tasks.filter (fun p => p.1 ≠ id) }, Except.ok ())
  | none => (q, Except.error TaskError.NotFound)

/-- Lookup phase of `TaskQueue::_get_task` in `task_queue.rs`: `NotFound`
when the identity is absent, otherwise it spawns the observer loop (embedded
as `observerRun` below) and hands back the receiving end of the channel. -/
def get_task (q : TaskQueue) (id : Nat) : Except TaskError Unit :=
  match q.findTask id with
  | some _ => Except.ok ()
  | none => Except.error TaskError.NotFound

end TaskQueue

/-- The bounded one-shot channel created by `_get_task`
(`channel::bounded(1)`), reduced to the count of messages actually delivered
into it. -/
structure Chan where
  delivered : Nat
deriving DecidableEq, Repr

/-- The source signals completion with `let _ = tx_clone.send(());`
(`task_queue.rs` line 143).  `Sender::send` is an async method: it returns a
future that enqueues the message only when polled to completion, and the
`let _ =` binding drops that future without ever awaiting it, so no message
reaches the channel. -/
def sendDropped (c : Chan) : Chan := c

/-- Observer loop spawned by `_get_task` (`task_queue.rs` lines 120-144),
run against the sequence of poll outcomes it observes: `Pending` and
`Paused` continue the loop, `Completed` and `Cancelled` break out of it and
reach the `send` call.  Returns `none` when the loop has not terminated
within the observed outcomes, otherwise the channel as left by the
(dropped) send. -/
def observerRun (c : Chan) : List PollResult → Option Chan
  | [] => none
  | r :: rs =>
      match r with
      | PollResult.Pending _ => observerRun c rs
      | PollResult.Paused _ => observerRun c rs
      | PollResult.Completed => some (sendDropped c)
      | PollResult.Cancelled => some (sendDropped c)

/-! Concrete task states and traces used by witnesses and counterexamples. -/

/-- A freshly constructed task (duration 1s), still `Queued`. -/
def queuedTask : SleepTask := SleepTask.new 0 1

/-- A task of duration 1s whose timer started at instant 0 and that has
never been paused. -/
def runningTask : SleepTask :=
  { id := 0, duration := 1, status := TaskStatus.Running, handleSpawned := true,
    start_time := some 0, elapsed_time := 0, paused_duration := 0 }

/-- A task of duration 2s paused after 1s of running time. -/
def pausedTask : SleepTask :=
  { id := 0, duration := 2, status := TaskStatus.Paused, handleSpawned := true,
    start_time := some 0, elapsed_time := 1, paused_duration := 1 }

/-- A completed task. -/
def completedTask : SleepTask :=
  { id := 0, duration := 1, status := TaskStatus.Completed, handleSpawned := true,
    start_time := some 0, elapsed_time := 1, paused_duration := 0 }

/-- A cancelled task. -/
def cancelledTask : SleepTask :=
  { id := 0, duration := 1, status := TaskStatus.Cancelled, handleSpawned := true,
    start_time := some 0, elapsed_time := 0, paused_duration := 0 }

/-- A running task of duration 1s that banked 1/2s at an earlier pause and
resumed at instant 0. -/
def bankedRunningTask : SleepTask :=
  { id := 0, duration := 1, status := TaskStatus.Running, handleSpawned := true,
    start_time := some 0, elapsed_time := 0, paused_duration := 1/2 }

/-- A task of duration 1s paused only after 2s had elapsed (the timer had
not yet flipped the status), so the banked ratio exceeds 1. -/
def overPausedTask : SleepTask :=
  { id := 0, duration := 1, status := TaskStatus.Paused, handleSpawned := true,
    start_time := some 0, elapsed_time := 2, paused_duration := 2 }

/-- A task constructed with `total_duration` zero, observed in the window
after the timer closure set `Running` and the start instant but before it
completed. -/
def zeroDurTask : SleepTask :=
  { id := 0, duration := 0, status := TaskStatus.Running, handleSpawned := true,
    start_time := some 0, elapsed_time := 0, paused_duration := 0 }

/-- Two pause/resume cycles on a task of duration 4s: timer starts at 0,
pause at 1, resume at 2, pause again at 3.  Each `Running` stretch lasts 1s,
so 2s of running time have accrued by the second pause. -/
def pauseTwiceTrace : List Ev :=
  [Ev.bgStartEv 0, Ev.pauseEv 1, Ev.resumeEv 2, Ev.pauseEv 3]

/-! Constructor-disjointness simp lemmas (the derived decidable equality
does not kernel-reduce once rational fields are involved, so the status
comparisons inside `if`s are discharged by these instead). -/

theorem queued_eq_running_false : (TaskStatus.Queued = TaskStatus.Running) = False :=
  eq_false (fun h => TaskStatus.noConfusion h)

theorem paused_eq_running_false : (TaskStatus.Paused = TaskStatus.Running) = False :=
  eq_false (fun h => TaskStatus.noConfusion h)

theorem cancelled_eq_completed_false :
    (TaskStatus.Cancelled = TaskStatus.Completed) = False :=
  eq_false (fun h => TaskStatus.noConfusion h)

attribute [simp] queued_eq_running_false paused_eq_running_false
  cancelled_eq_completed_false

/-- C1: once a task's status is `Completed` or `Cancelled`, none of `poll`,
`pause`, `resume`, `cancel`, or the background operation finishing changes
its state, and every subsequent `poll` returns the same terminal outcome. -/
theorem terminal_state_is_stable (s : SleepTask) (now : ℚ)
    (h : s.status = TaskStatus.Completed ∨ s.status = TaskStatus.Cancelled) :
    (SleepTask.poll s now).1 = s ∧
    (SleepTask.poll s now).2 =
      (if s.status = TaskStatus.Completed then PollResult.Completed
        else PollResult.Cancelled) ∧
    SleepTask.pause s now =
      some (s, Except.error
        (if s.status = TaskStatus.Completed then TaskError.AlreadyCompleted
          else TaskError.AlreadyCancelled)) ∧
    SleepTask.resume s now =
      (s, Except.error
        (if s.status = TaskStatus.Completed then TaskError.AlreadyCompleted
          else TaskError.AlreadyCancelled)) ∧
    SleepTask.cancel s =
      (s, Except.error
        (if s.status = TaskStatus.Completed then TaskError.AlreadyCompleted
          else TaskError.AlreadyCancelled)) ∧
    SleepTask.bgFinish s = s := by
  rcases h with h | h <;>
    simp [SleepTask.poll, SleepTask.pause, SleepTask.resume, SleepTask.cancel,
      SleepTask.bgFinish, h]

/-- Witness for C1 at a concrete completed task. -/
theorem terminal_state_is_stable_witness :
    (SleepTask.poll completedTask 5).1 = completedTask ∧
    (SleepTask.poll completedTask 5).2 =
      (if completedTask.status = TaskStatus.Completed then PollResult.Completed
        else PollResult.Cancelled) ∧
    SleepTask.pause completedTask 5 =
      some (completedTask, Except.error
        (if completedTask.status = TaskStatus.Completed then
          TaskError.AlreadyCompleted else TaskError.AlreadyCancelled)) ∧
    SleepTask.resume completedTask 5 =
      (completedTask, Except.error
        (if completedTask.status = TaskStatus.Completed then
          TaskError.AlreadyCompleted else TaskError.AlreadyCancelled)) ∧
    SleepTask.cancel completedTask =
      (completedTask, Except.error
        (if completedTask.status = TaskStatus.Completed then
          TaskError.AlreadyCompleted else TaskError.AlreadyCancelled)) ∧
    SleepTask.bgFinish completedTask = completedTask :=
  terminal_state_is_stable completedTask 5 (Or.inl rfl)

/-- C3: when the background operation finishes, the status becomes
`Completed` only from `Running`; a concurrently `Paused` (or already
`Cancelled`) status is left unchanged rather than set to `Completed`. -/
theorem bg_finish_respects_pause (s : SleepTask) :
    (s.status = TaskStatus.Running →
      SleepTask.bgFinish s = { s with status := TaskStatus.Completed }) ∧
    (s.status = TaskStatus.Paused → SleepTask.bgFinish s = s) ∧
    (s.status = TaskStatus.Cancelled → SleepTask.bgFinish s = s) := by
  obtain ⟨i, d, st, hs, t0, e, p⟩ := s
  refine ⟨fun h => ?_, fun h => ?_, fun h => ?_⟩ <;>
    (simp only at h; subst h; rfl)

/-- Witness for C3 at a concrete running task. -/
theorem bg_finish_respects_pause_witness :
    SleepTask.bgFinish runningTask =
      { runningTask with status := TaskStatus.Completed } :=
  (bg_finish_respects_pause runningTask).1 rfl

/-- C9: every invalid lifecycle transition returns the matching typed error
and leaves the task state unchanged: `pause` on `Paused` gives
`AlreadyPaused`; `resume` on `Queued` gives `NotFound` and on `Running`
gives `AlreadyRunning`; `pause`/`resume`/`cancel` on `Completed` give
`AlreadyCompleted` and on `Cancelled` give `AlreadyCancelled`. -/
theorem invalid_transitions_error_and_preserve (s : SleepTask) (now : ℚ) :
    (s.status = TaskStatus.Paused →
      SleepTask.pause s now = some (s, Except.error TaskError.AlreadyPaused)) ∧
    (s.status = TaskStatus.Queued →
      SleepTask.resume s now = (s, Except.error TaskError.NotFound)) ∧
    (s.status = TaskStatus.Running →
      SleepTask.resume s now = (s, Except.error TaskError.AlreadyRunning)) ∧
    (s.status = TaskStatus.Completed →
      SleepTask.pause s now =
          some (s, Except.error TaskError.AlreadyCompleted) ∧
        SleepTask.resume s now = (s, Except.error TaskError.AlreadyCompleted) ∧
        SleepTask.cancel s = (s, Except.error TaskError.AlreadyCompleted)) ∧
    (s.status = TaskStatus.Cancelled →
      SleepTask.pause s now =
          some (s, Except.error TaskError.AlreadyCancelled) ∧
        SleepTask.resume s now = (s, Except.error TaskError.AlreadyCancelled) ∧
        SleepTask.cancel s = (s, Except.error TaskError.AlreadyCancelled)) := by
  refine ⟨fun h => ?_, fun h => ?_, fun h => ?_, fun h => ?_, fun h => ?_⟩ <;>
    simp [SleepTask.pause, SleepTask.resume, SleepTask.cancel, h]

/-- Witness for C9 at concrete tasks in each offending state. -/
theorem invalid_transitions_error_and_preserve_witness :
    SleepTask.pause pausedTask 3 =
        some (pausedTask, Except.error TaskError.AlreadyPaused) ∧
    SleepTask.resume queuedTask 3 =
        (queuedTask, Except.error TaskError.NotFound) ∧
    SleepTask.resume runningTask 3 =
        (runningTask, Except.error TaskError.AlreadyRunning) ∧
    SleepTask.cancel completedTask =
        (completedTask, Except.error TaskError.AlreadyCompleted) ∧
    SleepTask.cancel cancelledTask =
        (cancelledTask, Except.error TaskError.AlreadyCancelled) :=
  ⟨(invalid_transitions_error_and_preserve pausedTask 3).1 rfl,
    (invalid_transitions_error_and_preserve queuedTask 3).2.1 rfl,
    (invalid_transitions_error_and_preserve runningTask 3).2.2.1 rfl,
    ((invalid_transitions_error_and_preserve completedTask 3).2.2.2.1 rfl).2.2,
    ((invalid_transitions_error_and_preserve cancelledTask 3).2.2.2.2 rfl).2.2⟩

/-- C10: every registry operation on an identity absent from the map —
`poll_task`, `_remove_task`, `_get_task` — returns `NotFound` and leaves the
registry unchanged (hence usable). -/
theorem unknown_identity_not_found (q : TaskQueue) (id : Nat) (now : ℚ)
    (h : q.findTask id = none) :
    TaskQueue.poll_task q id now = (q, Except.error TaskError.NotFound) ∧
    TaskQueue.remove_task q id = (q, Except.error TaskError.NotFound) ∧
    TaskQueue.get_task q id = Except.error TaskError.NotFound := by
  simp [TaskQueue.poll_task, TaskQueue.remove_task, TaskQueue.get_task, h]

/-- Witness for C10 at the empty registry. -/
theorem unknown_identity_not_found_witness :
    TaskQueue.poll_task TaskQueue.new 0 1 =
        (TaskQueue.new, Except.error TaskError.NotFound) ∧
    TaskQueue.remove_task TaskQueue.new 0 =
        (TaskQueue.new, Except.error TaskError.NotFound) ∧
    TaskQueue.get_task TaskQueue.new 0 = Except.error TaskError.NotFound :=
  unknown_identity_not_found TaskQueue.new 0 1 rfl

/-- C2 counterexample: after two Running→Paused→Running cycles (timer starts
at 0, pause at 1, resume at 2, pause at 3 on a 4-second task) the final
pause from `Running` leaves `paused_duration` at 1 — the length of the last
running segment only — while the task has spent 2 seconds in `Running`, so
`paused_duration` is not the cumulative running time the claim states. -/
theorem pause_overwrites_banked_time_cex :
    (runTrace (SleepTask.new 0 4) pauseTwiceTrace).status = TaskStatus.Paused ∧
    cumRunning (SleepTask.new 0 4) 0 pauseTwiceTrace = 2 ∧
    (runTrace (SleepTask.new 0 4) pauseTwiceTrace).paused_duration = 1 ∧
    (1 : ℚ) ≠ 2 := by
  refine ⟨?_, ?_, ?_, by norm_num⟩ <;>
    norm_num [pauseTwiceTrace, runTrace, cumRunning, applyEv, Ev.time,
      SleepTask.new, SleepTask.bgStart, SleepTask.pause, SleepTask.resume,
      SleepTask.poll]

/-- C2 amended: a pause from `Running` overwrites `paused_duration` with
`now − start_instant`, the elapsed time of the current running segment only;
earlier banked time is discarded rather than accumulated. -/
theorem pause_banks_current_segment (s : SleepTask) (now t : ℚ)
    (hs : s.status = TaskStatus.Running) (ht : s.start_time = some t) :
    SleepTask.pause s now =
      some ({ s with
                status := TaskStatus.Paused
                paused_duration := now - t }, Except.ok ()) := by
  simp [SleepTask.pause, hs, ht]

/-- Witness for the amended C2 at a concrete resumed task. -/
theorem pause_banks_current_segment_witness :
    SleepTask.pause bankedRunningTask 1 =
      some ({ bankedRunningTask with
                status := TaskStatus.Paused
                paused_duration := 1 - 0 }, Except.ok ()) :=
  pause_banks_current_segment bankedRunningTask 1 0 rfl rfl

/-- C4 counterexample: a running task of duration 1 polled at instant 2 with
no pause ever banked has progress 2 ≥ 1, yet `poll` returns
`Pending(1.0)` — the never-paused branch of the `Running` arm has no
completion check, so the claim's "whenever progress ≥ 1.0, poll returns
`Completed`" fails. -/
theorem running_poll_no_completion_without_pause_cex :
    fge1 (fdiv (2 - 0) runningTask.duration) = true ∧
    (SleepTask.poll runningTask 2).2 =
      PollResult.Pending (PollingData.Float (FVal.fin 1)) ∧
    (SleepTask.poll runningTask 2).2 ≠ PollResult.Completed := by
  refine ⟨?_, ?_, ?_⟩
  · norm_num [runningTask, fdiv, fge1]
  · norm_num [runningTask, SleepTask.poll, fdiv, fminOne]
  · intro h
    rw [show (SleepTask.poll runningTask 2).2 =
        PollResult.Pending (PollingData.Float (FVal.fin 1)) from by
      norm_num [runningTask, SleepTask.poll, fdiv, fminOne]] at h
    exact PollResult.noConfusion h

/-- C4 amended: a poll while `Running` recomputes progress from the elapsed
time and leaves the status `Running`; it returns `Completed` on progress
≥ 1.0 only in the pause-aware branch (`paused_duration > 0`), while the
never-paused branch always returns `Pending` with the progress capped at
1.0, leaving completion to the background operation. -/
theorem running_poll_completion_amended (s : SleepTask) (now t : ℚ)
    (hs : s.status = TaskStatus.Running) (ht : s.start_time = some t) :
    (SleepTask.poll s now).1.status = TaskStatus.Running ∧
    (0 < s.paused_duration →
      (fge1 (fdiv ((now - t) + s.paused_duration) s.duration) = true →
        (SleepTask.poll s now).2 = PollResult.Completed) ∧
      (fge1 (fdiv ((now - t) + s.paused_duration) s.duration) = false →
        (SleepTask.poll s now).2 =
          PollResult.Pending (PollingData.Float
            (fminOne (fdiv ((now - t) + s.paused_duration) s.duration))))) ∧
    (¬ 0 < s.paused_duration →
      (SleepTask.poll s now).2 =
        PollResult.Pending (PollingData.Float
          (fminOne (fdiv (now - t) s.duration)))) := by
  refine ⟨?_, fun hp => ⟨fun hc => ?_, fun hc => ?_⟩, fun hp => ?_⟩
  · simp only [SleepTask.poll, hs, ht]
    split
    · split <;> rfl
    · rfl
  · simp [SleepTask.poll, hs, ht, hp, hc]
  · simp [SleepTask.poll, hs, ht, hp, hc]
  · simp [SleepTask.poll, hs, ht, hp]

/-- Witness for the amended C4: a resumed task (1/2s banked) of duration 1s
polled 1s after resuming has progress 3/2 ≥ 1 in the pause-aware branch and
the poll returns `Completed`. -/
theorem running_poll_completion_amended_witness :
    (SleepTask.poll bankedRunningTask 1).2 = PollResult.Completed :=
  ((running_poll_completion_amended bankedRunningTask 1 0 rfl rfl).2.1
      (by norm_num [bankedRunningTask])).1
    (by norm_num [bankedRunningTask, fdiv, fge1])

/-- C5 counterexample: a task of duration 1s paused with 2s banked (the
timer had not yet completed) polls to `Paused(1.0)` — the ratio
`paused_duration / total_duration = 2` is capped by `.min(1.0)`, so the
carried progress is not equal to the ratio the claim states. -/
theorem paused_poll_progress_capped_cex :
    fdiv overPausedTask.paused_duration overPausedTask.duration = FVal.fin 2 ∧
    (SleepTask.poll overPausedTask 5).2 =
      PollResult.Paused (PollingData.Float (FVal.fin 1)) ∧
    FVal.fin (1 : ℚ) ≠ FVal.fin 2 := by
  refine ⟨?_, ?_, ?_⟩
  · norm_num [overPausedTask, fdiv]
  · norm_num [overPausedTask, SleepTask.poll, fdiv, fminOne]
  · intro h
    rw [FVal.fin.injEq] at h
    norm_num at h

/-- C5 amended: a poll while `Paused` returns a `Paused` outcome carrying
`min(paused_duration / total_duration, 1.0)`, leaves the task state
untouched, and is independent of the polling instant, so repeated polls
while the task stays `Paused` return exactly the same progress. -/
theorem paused_poll_frozen_amended (s : SleepTask) (now now' : ℚ)
    (hs : s.status = TaskStatus.Paused) :
    (SleepTask.poll s now).2 =
      PollResult.Paused
        (PollingData.Float (fminOne (fdiv s.paused_duration s.duration))) ∧
    (SleepTask.poll s now).1 = s ∧
    SleepTask.poll s now = SleepTask.poll s now' := by
  simp [SleepTask.poll, hs]

/-- Witness for the amended C5 at a concrete paused task, polled at two
different instants. -/
theorem paused_poll_frozen_amended_witness :
    (SleepTask.poll pausedTask 3).2 =
      PollResult.Paused
        (PollingData.Float
          (fminOne (fdiv pausedTask.paused_duration pausedTask.duration))) ∧
    (SleepTask.poll pausedTask 3).1 = pausedTask ∧
    SleepTask.poll pausedTask 3 = SleepTask.poll pausedTask 4 :=
  paused_poll_frozen_amended pausedTask 3 4 rfl

/-- Channel content is invariant across the observer loop: whenever the
loop terminates, the channel holds exactly what it held at the start,
because the `send` future is dropped unawaited. -/
theorem observerRun_preserves_channel (rs : List PollResult) (c c' : Chan)
    (h : observerRun c rs = some c') : c' = c := by
  induction rs with
  | nil => exact Option.noConfusion h
  | cons r rs ih =>
      cases r with
      | Pending d => exact ih h
      | Paused d => exact ih h
      | Completed => exact (Option.some.injEq _ _ ▸ h).symm ▸ rfl
      | Cancelled => exact (Option.some.injEq _ _ ▸ h).symm ▸ rfl

/-- C6: the observer loop spawned by `_get_task` breaks on the first
terminal poll outcome but delivers zero notifications into the one-shot
channel — `let _ = tx_clone.send(());` drops the `send` future without
awaiting it — not the exactly-one notification the claim states. -/
theorem observer_never_delivers :
    observerRun { delivered := 0 }
        [PollResult.Pending (PollingData.Float (FVal.fin 0)),
          PollResult.Completed] =
      some { delivered := 0 } ∧
    (0 : ℕ) ≠ 1 := by
  exact ⟨rfl, by norm_num⟩

/-- C8: a task constructed with `total_duration = 0`, polled in the window
where its status is `Running`, reaches the unguarded progress computation:
the f32 division `0.0 / 0.0` (NaN) is performed and the poll returns
`Pending(1.0)`, not the immediate completion the claim requires. -/
theorem zero_duration_poll_divides_by_zero :
    zeroDurTask.duration = 0 ∧
    fdiv (0 - 0) zeroDurTask.duration = FVal.nan ∧
    (SleepTask.poll zeroDurTask 0).2 =
      PollResult.Pending (PollingData.Float (FVal.fin 1)) ∧
    (SleepTask.poll zeroDurTask 0).2 ≠ PollResult.Completed := by
  refine ⟨rfl, by norm_num [zeroDurTask, fdiv], ?_, ?_⟩
  · norm_num [zeroDurTask, SleepTask.poll, fdiv, fminOne]
  · intro h
    rw [show (SleepTask.poll zeroDurTask 0).2 =
        PollResult.Pending (PollingData.Float (FVal.fin 1)) from by
      norm_num [zeroDurTask, SleepTask.poll, fdiv, fminOne]] at h
    exact PollResult.noConfusion h

/-- The capped ratio `min(a / b, 1.0)` always lands on a finite value in
the unit interval when both operands are non-negative, including the
zero-denominator NaN and infinity cases, which Rust's `min` sends to 1.0. -/
theorem fminOne_fdiv_mem_unit (a b : ℚ) (ha : 0 ≤ a) (hb : 0 ≤ b) :
    ∃ q, fminOne (fdiv a b) = FVal.fin q ∧ 0 ≤ q ∧ q ≤ 1 := by
  unfold fdiv
  by_cases h : b = 0
  · by_cases h0 : a = 0
    · exact ⟨1, by simp [h, h0, fminOne], zero_le_one, le_refl 1⟩
    · exact ⟨1, by simp [h, h0, fminOne], zero_le_one, le_refl 1⟩
  · refine ⟨min (a / b) 1, by simp [h, fminOne], ?_, min_le_right _ _⟩
    exact le_min (div_nonneg ha hb) zero_le_one

/-- C7: every `Pending` or `Paused` poll outcome of a well-formed task
state (non-negative duration and banked pause, start instant not in the
future) carries a finite progress value between 0.0 and 1.0. -/
theorem poll_progress_in_unit_interval (s : SleepTask) (now : ℚ) (x : FVal)
    (hdur : 0 ≤ s.duration) (hpd : 0 ≤ s.paused_duration)
    (hst : ∀ t, s.start_time = some t → t ≤ now)
    (h : (SleepTask.poll s now).2 = PollResult.Pending (PollingData.Float x) ∨
         (SleepTask.poll s now).2 = PollResult.Paused (PollingData.Float x)) :
    ∃ q, x = FVal.fin q ∧ 0 ≤ q ∧ q ≤ 1 := by
  cases hss : s.status <;> simp [SleepTask.poll, hss] at h
  · exact ⟨0, h.symm, le_refl 0, zero_le_one⟩
  · cases hstart : s.start_time with
    | none => simp [hstart] at h; exact ⟨0, h.symm, le_refl 0, zero_le_one⟩
    | some t =>
        simp only [hstart] at h
        by_cases hp : 0 < s.paused_duration
        · by_cases hc :
              fge1 (fdiv (now - t + s.paused_duration) s.duration) = true
          · simp [hp, hc] at h
          · simp [hp, hc] at h
            obtain ⟨q, hq, h0, h1⟩ :=
              fminOne_fdiv_mem_unit (now - t + s.paused_duration) s.duration
                (add_nonneg (sub_nonneg.mpr (hst t hstart)) hpd) hdur
            exact ⟨q, h ▸ hq, h0, h1⟩
        · simp [hp] at h
          obtain ⟨q, hq, h0, h1⟩ :=
            fminOne_fdiv_mem_unit (now - t) s.duration
              (sub_nonneg.mpr (hst t hstart)) hdur
          exact ⟨q, h ▸ hq, h0, h1⟩
  · obtain ⟨q, hq, h0, h1⟩ :=
      fminOne_fdiv_mem_unit s.paused_duration s.duration hpd hdur
    exact ⟨q, h ▸ hq, h0, h1⟩

/-- Witness for C7 at a freshly queued task polled at instant 0. -/
theorem poll_progress_in_unit_interval_witness :
    ∃ q, FVal.fin (0 : ℚ) = FVal.fin q ∧ 0 ≤ q ∧ q ≤ 1 :=
  poll_progress_in_unit_interval queuedTask 0 (FVal.fin 0)
    (by norm_num [queuedTask, SleepTask.new])
    (by norm_num [queuedTask, SleepTask.new])
    (fun t ht => Option.noConfusion ht) (Or.inl rfl)
